import Mathlib

/-
Verification of the query/retrieval pipeline of the document-QA backend.

The definitions below are a shallow embedding of the Python sources:
  backend/app/core/document_filter.py   (DocumentFilter)
  backend/app/core/citation_builder.py  (CitationBuilder)
  backend/app/core/query_engine.py      (QueryEngine)
  backend/app/models/schemas.py         (DocumentChunk, Citation, ...)

Modelling conventions:
  * Python runtime values flowing through metadata dictionaries and filter
    specifications are modelled by the inductive `Value` (strings, numbers,
    lists, dicts, None).  Python `int` and `float` are modelled together by
    `Value.vNum : Rat`, matching Python's numeric cross-type equality; the
    code only ever compares these values, never does float arithmetic.
  * Python dictionaries are modelled as association lists in insertion
    order; `dict.get` is `List.lookup`.  Dict equality under Python `==`
    is modelled as field-by-field equality in matching order (the
    canonical form produced by the program).
  * Python `==` is `pyEq` (structural; distinct shapes are unequal).
    Python `<` on values is `pyLt`, which returns `none` where CPython
    raises `TypeError` (comparison of incompatible shapes).
  * Fallible code (code that may raise) returns `Option`; `none` models a
    propagated exception.
  * Python truthiness (`if not x`, `if x`) is `pyFalsy`.
-/

namespace DocQA

/-- Model of a Python runtime value as stored in chunk metadata and filter
specifications. -/
inductive Value where
  | vStr (s : String)
  | vNum (q : Rat)
  | vList (vs : List Value)
  | vDict (fields : List (String × Value))
  | vNone

/- Python `==` on `Value` (model): structural equality; values of distinct
shapes compare unequal (Python returns `False`, it does not raise). -/
mutual

def pyEq : Value → Value → Bool
  | .vStr a, .vStr b => a == b
  | .vNum a, .vNum b => a == b
  | .vList a, .vList b => pyEqList a b
  | .vDict a, .vDict b => pyEqDict a b
  | .vNone, .vNone => true
  | _, _ => false

def pyEqList : List Value → List Value → Bool
  | [], [] => true
  | a :: as, b :: bs => pyEq a b && pyEqList as bs
  | _, _ => false

def pyEqDict : List (String × Value) → List (String × Value) → Bool
  | [], [] => true
  | (k, v) :: as, (k2, v2) :: bs => k == k2 && pyEq v v2 && pyEqDict as bs
  | _, _ => false

end

/- Python `<` on `Value` (model): defined for string/string and
number/number (and elementwise for list/list, as Python compares lists
lexicographically); `none` models the `TypeError` CPython raises on other
shape combinations. -/
mutual

def pyLt : Value → Value → Option Bool
  | .vStr a, .vStr b => some (decide (a.data < b.data))
  | .vNum a, .vNum b => some (decide (a < b))
  | .vList a, .vList b => pyLtList a b
  | _, _ => none

def pyLtList : List Value → List Value → Option Bool
  | [], [] => some false
  | [], _ :: _ => some true
  | _ :: _, [] => some false
  | a :: as, b :: bs => if pyEq a b then pyLtList as bs else pyLt a b

end

/-- Python truthiness on `Value`: `None`, `""`, `0`, `[]`, dictionary `\x7b\x7d`
are falsy. -/
def pyFalsy : Value → Bool
  | .vNone => true
  | .vStr s => s == ""
  | .vNum q => q == 0
  | .vList l => l.isEmpty
  | .vDict d => d.isEmpty

/-- Python `v in l` membership test (elementwise `==`). -/
def pyIn (v : Value) (l : List Value) : Bool := l.any (fun x => pyEq x v)

/-- schemas.py `DocumentChunk`: content, metadata dict, similarity score
(default 0.0). -/
structure DocumentChunk where
  content : String
  metadata : List (String × Value)
  similarity_score : Rat

/-- document_filter.py `DocumentFilter._check_date_range` (lines 43-58):
`doc_date = chunk.metadata.get("document_date"); if not doc_date: return
True`; then reject when `start_date and doc_date < start_date` or
`end_date and doc_date > end_date`. -/
def check_date_range (chunk : DocumentChunk) (date_range : List (String × Value)) : Option Bool :=
  let doc_date := (List.lookup "document_date" chunk.metadata).getD .vNone
  if pyFalsy doc_date then some true
  else
    let start_date := (List.lookup "start" date_range).getD .vNone
    let end_date := (List.lookup "end" date_range).getD .vNone
    match (if pyFalsy start_date then some false else pyLt doc_date start_date) with
    | none => none
    | some true => some false
    | some false =>
      match (if pyFalsy end_date then some false else pyLt end_date doc_date) with
      | none => none
      | some true => some false
      | some false => some true

/-- document_filter.py `DocumentFilter._check_metadata_filter` (lines
60-65): list filter value means membership, otherwise equality. -/
def check_metadata_filter (metadata_value : Value) (filter_value : Value) : Bool :=
  match filter_value with
  | .vList l => pyIn metadata_value l
  | _ => pyEq metadata_value filter_value

/-- One iteration of the `for key, value in filters.items()` loop of
`DocumentFilter._should_include_chunk` (lines 27-39): `some b` is the
predicate verdict for this key, `none` a raised exception.  The fallthrough
arm models the `elif key in chunk.metadata` branch (keys absent from the
metadata are silently not checked). -/
def filterStep (chunk : DocumentChunk) (key : String) (value : Value) : Option Bool :=
  match key, value with
  | "date_range", .vDict dr => check_date_range chunk dr
  | "relevance_threshold", .vNum t => some (!decide (chunk.similarity_score < t))
  | "document_ids", .vList ids => some (pyIn ((List.lookup "doc_id" chunk.metadata).getD .vNone) ids)
  | key, value =>
    match List.lookup key chunk.metadata with
    | some mv => some (check_metadata_filter mv value)
    | none => some true

/-- document_filter.py `DocumentFilter._should_include_chunk` (lines
24-41): all filter-spec entries are AND-ed, first failing predicate
short-circuits to `False`. -/
def shouldIncludeChunk (chunk : DocumentChunk) : List (String × Value) → Option Bool
  | [] => some true
  | (key, value) :: rest =>
    match filterStep chunk key value with
    | none => none
    | some false => some false
    | some true => shouldIncludeChunk chunk rest

/-- The `for chunk in chunks` accumulation loop of
`DocumentFilter.apply_filters` (lines 17-20). -/
def filterChunks (filters : List (String × Value)) : List DocumentChunk → Option (List DocumentChunk)
  | [] => some []
  | c :: cs =>
    match shouldIncludeChunk c filters with
    | none => none
    | some b =>
      match filterChunks filters cs with
      | none => none
      | some rest => some (if b then c :: rest else rest)

/-- document_filter.py `DocumentFilter.apply_filters` (lines 12-22):
`if not filters: return chunks` (covers both `None` and the empty dict),
otherwise keep exactly the chunks passing `_should_include_chunk`. -/
def apply_filters (chunks : List DocumentChunk) (filters : Option (List (String × Value))) : Option (List DocumentChunk) :=
  match filters with
  | none => some chunks
  | some [] => some chunks
  | some fs => filterChunks fs chunks

/-- schemas.py `Citation`: the fields `CitationBuilder` fills.  Field values
produced by `metadata.get(...)` are Python values, so they are modelled as
`Value` (with `vNone` for an absent key, exactly like `dict.get`). -/
structure Citation where
  doc_id : Value
  document_name : Value
  page_number : Value
  paragraph_number : Value
  content_snippet : String
  position_rect : Value

/-- schemas.py `EmbeddingInfo`. -/
structure EmbeddingInfo where
  vector_id : String
  similarity_score : Rat
  dimension : Nat
  model_name : String

/-- schemas.py `EnhancedCitation extends Citation` with optional embedding
provenance. -/
structure EnhancedCitation extends Citation where
  embedding_info : Option EmbeddingInfo

/-- citation_builder.py `CitationBuilder._create_snippet` (lines 54-59);
the Python default for `max_length` is 200 and every caller uses it. -/
def create_snippet (content : String) (max_length : Nat) : String :=
  if max_length < content.length then content.take max_length ++ "..." else content

/-- citation_builder.py line 22: `chunk.metadata.get("position", \x7b\x7d).get("rect")`.
`none` models the `AttributeError` raised when the stored `position` value
is not a dictionary (a non-dict has no `.get`). -/
def get_position_rect (md : List (String × Value)) : Option Value :=
  match (List.lookup "position" md).getD (Value.vDict []) with
  | .vDict p => some ((List.lookup "rect" p).getD Value.vNone)
  | _ => none

/-- The `Citation(...)` construction of `CitationBuilder.create_basic_citations`
(citation_builder.py lines 16-23) for one chunk. -/
def make_basic_citation (chunk : DocumentChunk) : Option Citation :=
  match get_position_rect chunk.metadata with
  | none => none
  | some rect =>
    some ⟨(List.lookup "doc_id" chunk.metadata).getD (.vStr "Unknown"),
      (List.lookup "filename" chunk.metadata).getD (.vStr "Unknown"),
      (List.lookup "page_number" chunk.metadata).getD .vNone,
      (List.lookup "paragraph_number" chunk.metadata).getD .vNone,
      create_snippet chunk.content 200,
      rect⟩

/-- citation_builder.py `CitationBuilder.create_basic_citations` (lines
11-25): one citation per chunk, in order. -/
def create_basic_citations : List DocumentChunk → Option (List Citation)
  | [] => some []
  | c :: cs =>
    match make_basic_citation c, create_basic_citations cs with
    | some cit, some rest => some (cit :: rest)
    | _, _ => none

/-- One scored result from the vector store, as consumed by
`create_enhanced_citations` (`result.id`, `result.score`); `id` is modelled
after the `str(result.id)` coercion. -/
structure VectorResult where
  id : String
  score : Rat

/-- The indexed loop of `CitationBuilder.create_enhanced_citations`
(citation_builder.py lines 30-51), carrying the running index `i`:
embedding provenance is attached exactly when `i < len(vector_results)`,
and the base fields are the same expressions as in
`create_basic_citations`. -/
def create_enhanced_citations_from (vector_results : List VectorResult) : Nat → List DocumentChunk → Option (List EnhancedCitation)
  | _, [] => some []
  | i, c :: cs =>
    let embedding_info : Option EmbeddingInfo :=
      match vector_results[i]? with
      | some result => some ⟨result.id, result.score, 768, "embedding-model"⟩
      | none => none
    match make_basic_citation c, create_enhanced_citations_from vector_results (i + 1) cs with
    | some base, some rest => some (⟨base, embedding_info⟩ :: rest)
    | _, _ => none

/-- citation_builder.py `CitationBuilder.create_enhanced_citations` (lines
27-52). -/
def create_enhanced_citations (chunks : List DocumentChunk) (vector_results : List VectorResult) : Option (List EnhancedCitation) :=
  create_enhanced_citations_from vector_results 0 chunks

/-- A raw retriever result, as sniffed by
`QueryEngine._convert_to_document_chunks`: a LangChain document (has
`page_content`), an already converted chunk (has `content`), or an
unrecognized shape. -/
inductive RawDoc where
  | langchain (page_content : String) (metadata : List (String × Value))
  | chunk (c : DocumentChunk)
  | unknown

/-- query_engine.py `QueryEngine._convert_to_document_chunks` (lines
24-44): LangChain documents are rebuilt with `similarity_score=0.0`,
chunks pass through, unknown shapes are skipped with a warning. -/
def convert_to_document_chunks : List RawDoc → List DocumentChunk
  | [] => []
  | .langchain page_content metadata :: rest => ⟨page_content, metadata, 0⟩ :: convert_to_document_chunks rest
  | .chunk c :: rest => c :: convert_to_document_chunks rest
  | .unknown :: rest => convert_to_document_chunks rest

/-- query_engine.py lines 57-62: `if selected_document_ids:` (Python
truthiness, so an empty allow-list restricts nothing) then keep chunks
whose `metadata.get("doc_id")` is in the allow-list. -/
def filter_by_selected (chunks : List DocumentChunk) (selected_document_ids : Option (List String)) : List DocumentChunk :=
  match selected_document_ids with
  | some (i :: is) =>
    chunks.filter (fun c => pyIn ((List.lookup "doc_id" c.metadata).getD .vNone) ((i :: is).map .vStr))
  | _ => chunks

/-- The "no relevant documents" message of query_engine.py lines 69-71 and
125-127 (the allow-list mention is appended only when
`selected_document_ids` is truthy, i.e. present and non-empty). -/
def no_results_message (selected_document_ids : Option (List String)) : String :=
  "No relevant documents found matching the criteria." ++
    (match selected_document_ids with
     | some (i :: is) => " Search was limited to " ++ toString (List.length (i :: is)) ++ " selected documents."
     | _ => "")

/-- Encoding of the `filters` argument as the Python value stored in
response metadata (`None` or the filter dict itself). -/
def filtersValue : Option (List (String × Value)) → Value
  | none => .vNone
  | some fs => .vDict fs

/-- Encoding of `selected_document_ids` as the Python value stored in
response metadata. -/
def selectedValue : Option (List String) → Value
  | none => .vNone
  | some ids => .vList (ids.map .vStr)

/-- The `documents_searched` metadata entry of query_engine.py line 98:
allow-list length when truthy, else the literal string `"all"`. -/
def documentsSearchedValue : Option (List String) → Value
  | some (i :: is) => .vNum (List.length (i :: is) : Nat)
  | _ => .vStr "all"

/-- schemas.py / query_engine.py `QueryResponse` shape: answers, citations,
metadata dict. -/
structure QueryResponse where
  answers : List String
  citations : List Citation
  metadata : List (String × Value)

/-- `EnhancedQueryResponse` shape: same but with enhanced citations. -/
structure EnhancedQueryResponse where
  answers : List String
  citations : List EnhancedCitation
  metadata : List (String × Value)

/-- query_engine.py `QueryEngine.process_query` (lines 46-104),
parameterized by its collaborators: `search` is
`vector_store.similarity_search`, `answer` is `llm_service.answer_query`.
`none` models a propagated exception (the method re-raises). -/
def process_query (search : String → Nat → List RawDoc) (answer : String → String → String)
    (query : String) (filters : Option (List (String × Value)))
    (selected_document_ids : Option (List String)) : Option QueryResponse :=
  let raw_results := search query 10
  let chunks := filter_by_selected (convert_to_document_chunks raw_results) selected_document_ids
  match apply_filters chunks filters with
  | none => none
  | some filtered_chunks =>
    if filtered_chunks.isEmpty then
      some ⟨[no_results_message selected_document_ids], [],
        [("query", .vStr query), ("filters", filtersValue filters),
         ("selected_document_ids", selectedValue selected_document_ids),
         ("total_results", .vNum 0)]⟩
    else
      let context := String.intercalate "\n\n" (filtered_chunks.map (·.content))
      match create_basic_citations filtered_chunks with
      | none => none
      | some citations =>
        some ⟨[answer query context], citations,
          [("query", .vStr query), ("filters", filtersValue filters),
           ("selected_document_ids", selectedValue selected_document_ids),
           ("total_results", .vNum (filtered_chunks.length : Nat)),
           ("documents_searched", documentsSearchedValue selected_document_ids)]⟩

/-- query_engine.py `QueryEngine.process_enhanced_query` (lines 106-159):
identical pipeline, but citations are built by
`create_enhanced_citations(filtered_chunks, [])` (line 143) — the scored
results list passed is always empty. -/
def process_enhanced_query (search : String → Nat → List RawDoc) (answer : String → String → String)
    (query : String) (filters : Option (List (String × Value)))
    (selected_document_ids : Option (List String)) : Option EnhancedQueryResponse :=
  let raw_results := search query 10
  let chunks := filter_by_selected (convert_to_document_chunks raw_results) selected_document_ids
  match apply_filters chunks filters with
  | none => none
  | some filtered_chunks =>
    if filtered_chunks.isEmpty then
      some ⟨[no_results_message selected_document_ids], [],
        [("query", .vStr query), ("filters", filtersValue filters),
         ("selected_document_ids", selectedValue selected_document_ids),
         ("total_results", .vNum 0)]⟩
    else
      let context := String.intercalate "\n\n" (filtered_chunks.map (·.content))
      match create_enhanced_citations filtered_chunks [] with
      | none => none
      | some enhanced_citations =>
        some ⟨[answer query context], enhanced_citations,
          [("query", .vStr query), ("filters", filtersValue filters),
           ("selected_document_ids", selectedValue selected_document_ids),
           ("total_results", .vNum (filtered_chunks.length : Nat)),
           ("documents_searched", documentsSearchedValue selected_document_ids)]⟩

/-- Python list indexing `l[i]` with an `int` index: nonnegative indices
index from the front, negative indices from the back, anything else raises
`IndexError` (modelled by `none`). -/
def pyListIndex (l : List DocumentChunk) (i : Int) : Option DocumentChunk :=
  if 0 ≤ i then l[i.toNat]?
  else if 0 ≤ (l.length : Int) + i then l[((l.length : Int) + i).toNat]?
  else none

/-- The per-theme index-resolution loop shared by the three theme
extraction variants (query_engine.py lines 201-206, 312-314, 389-394):
`for idx in doc_indices: if idx < len(chunks): ... append doc_id ...
append chunk`.  Returns the supporting-document ids and the resolved
chunks; `none` models an `IndexError` from `chunks[idx]`. -/
def resolve_theme (chunks : List DocumentChunk) : List Int → Option (List Value × List DocumentChunk)
  | [] => some ([], [])
  | i :: rest =>
    if i < (chunks.length : Int) then
      match pyListIndex chunks i with
      | none => none
      | some c =>
        match resolve_theme chunks rest with
        | none => none
        | some (docs, picked) =>
          some (((List.lookup "doc_id" c.metadata).getD (.vStr "Unknown")) :: docs, c :: picked)
    else resolve_theme chunks rest

/-- The result record built by `QueryEngine.search_documents`
(query_engine.py lines 551-558), restricted to the pagination fields. -/
structure SearchResult (α : Type) where
  documents : List α
  total_count : Nat
  page_count : Nat
  current_page : Nat
  page_size : Nat

/-- The pagination tail of `QueryEngine.search_documents` (query_engine.py
lines 541-549), applied to the already filtered and sorted document list:
`page_count = math.ceil(total_count / page_size) if total_count > 0 else 1`
(for positive integers `math.ceil(a / b) = (a + b - 1) / b` in integer
arithmetic, which is how the ceiling is rendered here), then the slice
`filtered_documents[(page_number-1)*page_size : ... + page_size]`.
`page_number` ranges over 1-based pages (the route defaults a falsy page
number to 1). -/
def search_documents_paginate {α : Type} (filtered_documents : List α) (page_size page_number : Nat) : SearchResult α :=
  let total_count := filtered_documents.length
  let page_count := if 0 < total_count then (total_count + page_size - 1) / page_size else 1
  ⟨(filtered_documents.drop ((page_number - 1) * page_size)).take page_size,
    total_count, page_count, page_number, page_size⟩

/-! Helper lemmas. -/

/-- Whatever `filterChunks` returns is a sublist (subsequence) of its
input: the loop only ever skips or keeps elements, in order. -/
theorem filterChunks_sublist (fs : List (String × Value)) :
    ∀ (cs out : List DocumentChunk), filterChunks fs cs = some out → List.Sublist out cs := by
  intro cs
  induction cs with
  | nil => intro out h; cases h; exact List.Sublist.refl _
  | cons c cs ih =>
    intro out h
    unfold filterChunks at h
    cases hsi : shouldIncludeChunk c fs with
    | none => rw [hsi] at h; cases h
    | some b =>
      rw [hsi] at h
      cases hrec : filterChunks fs cs with
      | none => rw [hrec] at h; cases h
      | some rest =>
        rw [hrec] at h
        injection h with h'
        subst h'
        cases b with
        | false => simpa using List.Sublist.cons c (ih rest hrec)
        | true => simpa using List.Sublist.cons₂ c (ih rest hrec)

/-- A successful `make_basic_citation` always fills `content_snippet` with
the 200-character snippet of the chunk's content. -/
theorem make_basic_citation_snippet (chunk : DocumentChunk) (cit : Citation)
    (h : make_basic_citation chunk = some cit) :
    cit.content_snippet = create_snippet chunk.content 200 := by
  unfold make_basic_citation at h
  cases hp : get_position_rect chunk.metadata with
  | none => rw [hp] at h; cases h
  | some rect => rw [hp] at h; cases h; rfl

/-- `create_basic_citations` succeeds positionally: the i-th output
citation is exactly `make_basic_citation` of the i-th input chunk. -/
theorem create_basic_citations_index :
    ∀ (chunks : List DocumentChunk) (out : List Citation),
      create_basic_citations chunks = some out →
      out.length = chunks.length ∧
      ∀ i (h1 : i < chunks.length) (h2 : i < out.length),
        make_basic_citation (chunks.get ⟨i, h1⟩) = some (out.get ⟨i, h2⟩) := by
  intro chunks
  induction chunks with
  | nil =>
    intro out h
    cases h
    exact ⟨rfl, fun i h1 _ => absurd h1 (Nat.not_lt_zero i)⟩
  | cons c cs ih =>
    intro out h
    unfold create_basic_citations at h
    cases hc : make_basic_citation c with
    | none => rw [hc] at h; cases h
    | some cit =>
      rw [hc] at h
      cases hr : create_basic_citations cs with
      | none => rw [hr] at h; cases h
      | some rest =>
        rw [hr] at h
        injection h with h'
        subst h'
        obtain ⟨hlen, hidx⟩ := ih rest hr
        refine ⟨by simp [hlen], ?_⟩
        intro i h1 h2
        cases i with
        | zero => simpa using hc
        | succ j => exact hidx j (by simpa using h1) (by simpa using h2)

/-- Positional description of the enhanced-citation loop, generalized over
the running index. -/
theorem create_enhanced_citations_from_spec (vrs : List VectorResult) :
    ∀ (chunks : List DocumentChunk) (start : Nat) (out : List EnhancedCitation),
      create_enhanced_citations_from vrs start chunks = some out →
      out.length = chunks.length ∧
      create_basic_citations chunks = some (out.map (·.toCitation)) ∧
      ∀ i (h2 : i < out.length),
        (out.get ⟨i, h2⟩).embedding_info =
          (vrs[start + i]?).map (fun r => ⟨r.id, r.score, 768, "embedding-model"⟩) := by
  intro chunks
  induction chunks with
  | nil =>
    intro start out h
    cases h
    exact ⟨rfl, rfl, fun i h2 => absurd h2 (Nat.not_lt_zero i)⟩
  | cons c cs ih =>
    intro start out h
    unfold create_enhanced_citations_from at h
    cases hc : make_basic_citation c with
    | none => rw [hc] at h; cases h
    | some base =>
      rw [hc] at h
      cases hr : create_enhanced_citations_from vrs (start + 1) cs with
      | none => rw [hr] at h; cases h
      | some rest =>
        rw [hr] at h
        injection h with h'
        subst h'
        obtain ⟨hlen, hbasic, hidx⟩ := ih (start + 1) rest hr
        refine ⟨by simp [hlen], by simp [create_basic_citations, hc, hbasic], ?_⟩
        intro i h2
        cases i with
        | zero =>
          simp only [Nat.add_zero]
          cases hv : vrs[start]? <;> rfl
        | succ j =>
          have hj := hidx j (by simpa using h2)
          rw [show start + (j + 1) = start + 1 + j from by omega]
          exact hj

/-! Claim theorems. -/

/-- C1: for every passage list `P` and filter spec `f`, `apply_filters`
returns (when it returns) a subset of `P` that preserves the original
relative order (a sublist), and on an absent (`none`) or empty filter spec
it returns `P` unchanged.  The embedding is a pure function, so `P` is
never mutated. -/
theorem apply_filters_identity_and_sublist (P : List DocumentChunk) :
    apply_filters P none = some P ∧ apply_filters P (some []) = some P ∧
    ∀ f out, apply_filters P f = some out → List.Sublist out P := by
  refine ⟨rfl, rfl, ?_⟩
  rintro (_ | fs) out h
  · cases h; exact List.Sublist.refl _
  · cases fs with
    | nil => cases h; exact List.Sublist.refl _
    | cons x xs => exact filterChunks_sublist _ _ _ h

/-- Witness for C1 at a concrete input: a relevance filter keeps the
second of two passages, and the result is a sublist of the input. -/
theorem apply_filters_identity_and_sublist_spot :
    List.Sublist [DocumentChunk.mk "b" [] 1] [DocumentChunk.mk "a" [] 0, DocumentChunk.mk "b" [] 1] :=
  (apply_filters_identity_and_sublist _).2.2
    (some [("relevance_threshold", Value.vNum 1)]) _ (by rfl)

/-- C5: a filter spec consisting of the `relevance_threshold` key with
numeric threshold `t` keeps exactly the passages whose `similarity_score`
is at least `t` (the boundary `score = t` is kept, since the code drops
only on `score < t`). -/
theorem relevance_threshold_exact (P : List DocumentChunk) (t : Rat) :
    apply_filters P (some [("relevance_threshold", Value.vNum t)]) =
      some (P.filter (fun c => decide (t ≤ c.similarity_score))) := by
  show filterChunks _ P = _
  induction P with
  | nil => rfl
  | cons c cs ih =>
    by_cases h : c.similarity_score < t
    · simp [filterChunks, shouldIncludeChunk, filterStep, ih, List.filter, h, not_le.mpr h]
    · simp [filterChunks, shouldIncludeChunk, filterStep, ih, List.filter, h, not_lt.mp h]

/-- C6: the citation snippet equals the content when its length is at most
200 characters, and equals exactly the first 200 characters followed by
"..." when longer; `create_basic_citations` maps passages to citations
one-to-one (same length, i-th citation built from i-th passage, hence
order-preserving), and each citation's snippet obeys the snippet rule. -/
theorem snippet_and_basic_citations :
    (∀ s : String, (s.length ≤ 200 → create_snippet s 200 = s) ∧
      (200 < s.length → create_snippet s 200 = s.take 200 ++ "...")) ∧
    (∀ (chunks : List DocumentChunk) (out : List Citation),
      create_basic_citations chunks = some out →
      out.length = chunks.length ∧
      ∀ i (h1 : i < chunks.length) (h2 : i < out.length),
        make_basic_citation (chunks.get ⟨i, h1⟩) = some (out.get ⟨i, h2⟩) ∧
        (out.get ⟨i, h2⟩).content_snippet = create_snippet (chunks.get ⟨i, h1⟩).content 200) := by
  constructor
  · intro s
    constructor
    · intro h; simp [create_snippet, Nat.not_lt.mpr h]
    · intro h; simp [create_snippet, h]
  · intro chunks out h
    obtain ⟨hlen, hidx⟩ := create_basic_citations_index chunks out h
    exact ⟨hlen, fun i h1 h2 =>
      ⟨hidx i h1 h2, make_basic_citation_snippet _ _ (hidx i h1 h2)⟩⟩

set_option maxRecDepth 4000 in
/-- Witness for C6 at concrete inputs: a short string is kept whole, a
201-character string is truncated, and the citation list of a one-chunk
input is built positionally from that chunk. -/
theorem snippet_and_basic_citations_spot :
    create_snippet "hello" 200 = "hello" ∧
    create_snippet (String.mk (List.replicate 201 'x')) 200 =
      (String.mk (List.replicate 201 'x')).take 200 ++ "..." ∧
    make_basic_citation (DocumentChunk.mk "hello" [] 0) =
      some (Citation.mk (Value.vStr "Unknown") (Value.vStr "Unknown")
        Value.vNone Value.vNone "hello" Value.vNone) :=
  ⟨(snippet_and_basic_citations.1 "hello").1 (by decide),
   (snippet_and_basic_citations.1 _).2 (by decide),
   ((snippet_and_basic_citations.2 [DocumentChunk.mk "hello" [] 0]
      [Citation.mk (Value.vStr "Unknown") (Value.vStr "Unknown")
        Value.vNone Value.vNone "hello" Value.vNone] (by rfl)).2
      0 (by decide) (by decide)).1⟩

/-- C8: `create_enhanced_citations` produces one enhanced citation per
passage in order, with the same base fields as the basic citations, and the
i-th citation carries embedding provenance from `scored_results[i]` exactly
when `i` is in range of the scored-results list, and no provenance
(`none`) at or beyond its length. -/
theorem enhanced_citations_spec (chunks : List DocumentChunk) (vrs : List VectorResult)
    (out : List EnhancedCitation) (h : create_enhanced_citations chunks vrs = some out) :
    out.length = chunks.length ∧
    create_basic_citations chunks = some (out.map (·.toCitation)) ∧
    ∀ i (h2 : i < out.length),
      ((out.get ⟨i, h2⟩).embedding_info =
        (vrs[i]?).map (fun r => ⟨r.id, r.score, 768, "embedding-model"⟩)) ∧
      (vrs.length ≤ i → (out.get ⟨i, h2⟩).embedding_info = none) := by
  obtain ⟨h1, h2, h3⟩ := create_enhanced_citations_from_spec vrs chunks 0 out h
  refine ⟨h1, h2, fun i hi => ⟨by simpa using h3 i hi, fun hlen => ?_⟩⟩
  have hz := h3 i hi
  rw [List.getElem?_eq_none (by simpa using hlen)] at hz
  simpa using hz

/-- Witness for C8: two passages against one scored result — the first
citation carries that result's provenance, the second carries none. -/
theorem enhanced_citations_spec_spot :
    ([EnhancedCitation.mk (Citation.mk (Value.vStr "Unknown") (Value.vStr "Unknown")
        Value.vNone Value.vNone "x" Value.vNone) (some (EmbeddingInfo.mk "v1" 1 768 "embedding-model")),
      EnhancedCitation.mk (Citation.mk (Value.vStr "Unknown") (Value.vStr "Unknown")
        Value.vNone Value.vNone "y" Value.vNone) none].get ⟨0, by decide⟩).embedding_info =
      some (EmbeddingInfo.mk "v1" 1 768 "embedding-model") ∧
    ([EnhancedCitation.mk (Citation.mk (Value.vStr "Unknown") (Value.vStr "Unknown")
        Value.vNone Value.vNone "x" Value.vNone) (some (EmbeddingInfo.mk "v1" 1 768 "embedding-model")),
      EnhancedCitation.mk (Citation.mk (Value.vStr "Unknown") (Value.vStr "Unknown")
        Value.vNone Value.vNone "y" Value.vNone) none].get ⟨1, by decide⟩).embedding_info = none :=
  ⟨by
    have h := enhanced_citations_spec [DocumentChunk.mk "x" [] 0, DocumentChunk.mk "y" [] 0]
      [VectorResult.mk "v1" 1] _ (by rfl)
    exact (h.2.2 0 (by decide)).1,
   by
    have h := enhanced_citations_spec [DocumentChunk.mk "x" [] 0, DocumentChunk.mk "y" [] 0]
      [VectorResult.mk "v1" 1] _ (by rfl)
    exact (h.2.2 1 (by decide)).2 (by decide)⟩

/-- C2: whenever the surviving passage set after document-selection
restriction and filtering is empty, `process_query` returns (rather than
raising) a response with a single answer equal to the fixed "no relevant
documents" message — extended with the allow-list size when a non-empty
allow-list was given (Python treats an empty list as no allow-list) — an
empty citation list, and metadata whose `total_results` entry is 0. -/
theorem process_query_empty_result (search : String → Nat → List RawDoc)
    (answer : String → String → String) (q : String)
    (f : Option (List (String × Value))) (sel : Option (List String))
    (h : apply_filters (filter_by_selected (convert_to_document_chunks (search q 10)) sel) f = some []) :
    ∃ resp : QueryResponse,
      process_query search answer q f sel = some resp ∧
      resp.answers = ["No relevant documents found matching the criteria." ++
        (match sel with
         | some (i :: is) => " Search was limited to " ++ toString (List.length (i :: is)) ++ " selected documents."
         | _ => "")] ∧
      resp.citations = [] ∧
      List.lookup "total_results" resp.metadata = some (Value.vNum 0) := by
  simp only [process_query]
  rw [h]
  refine ⟨_, rfl, ?_, rfl, rfl⟩
  rcases sel with _ | ⟨_ | ⟨i, is⟩⟩ <;> rfl

/-- Witness for C2, realizing the spec scenario: the allow-list is
`["doc-A"]` but the only retrieved passage belongs to `doc-B`, so the
response is the empty-result message mentioning "1 selected documents". -/
theorem process_query_empty_result_spot :
    ∃ resp : QueryResponse,
      process_query (fun _ _ => [RawDoc.chunk (DocumentChunk.mk "b-text" [("doc_id", Value.vStr "doc-B")] 1)])
        (fun _ _ => "llm-answer") "refund policy" none (some ["doc-A"]) = some resp ∧
      resp.answers = ["No relevant documents found matching the criteria." ++
        (match some ["doc-A"] with
         | some (i :: is) => " Search was limited to " ++ toString (List.length (i :: is)) ++ " selected documents."
         | _ => "")] ∧
      resp.citations = [] ∧
      List.lookup "total_results" resp.metadata = some (Value.vNum 0) :=
  process_query_empty_result _ _ "refund policy" none (some ["doc-A"]) (by rfl)

/-- Every citation produced by the enhanced-citation builder from an empty
scored-results list has absent embedding provenance. -/
theorem create_enhanced_citations_nil_info :
    ∀ (start : Nat) (chunks : List DocumentChunk) (out : List EnhancedCitation),
      create_enhanced_citations_from [] start chunks = some out →
      ∀ c ∈ out, c.embedding_info = none := by
  intro start chunks
  induction chunks generalizing start with
  | nil => intro out h; cases h; intro c hc; cases hc
  | cons c cs ih =>
    intro out h
    unfold create_enhanced_citations_from at h
    cases hc : make_basic_citation c with
    | none => rw [hc] at h; cases h
    | some base =>
      rw [hc] at h
      cases hr : create_enhanced_citations_from [] (start + 1) cs with
      | none => rw [hr] at h; cases h
      | some rest =>
        rw [hr] at h
        injection h with h'
        subst h'
        intro x hx
        rcases List.mem_cons.mp hx with hx | hx
        · subst hx; rfl
        · exact ih (start + 1) rest hr x hx

/-- C10: `process_enhanced_query` builds its citations via
`create_enhanced_citations(filtered_chunks, [])` — the scored-results list
is always empty — so in every response it returns, every enhanced citation
has `embedding_info = none`. -/
theorem process_enhanced_query_no_provenance (search : String → Nat → List RawDoc)
    (answer : String → String → String) (q : String)
    (f : Option (List (String × Value))) (sel : Option (List String))
    (resp : EnhancedQueryResponse)
    (h : process_enhanced_query search answer q f sel = some resp) :
    ∀ c ∈ resp.citations, c.embedding_info = none := by
  simp only [process_enhanced_query] at h
  split at h
  · cases h
  · split at h
    · cases h
      intro c hc
      cases hc
    · split at h
      · cases h
      · rename_i x0 filtered hfilt hne cscr cits hcits
        cases h
        exact create_enhanced_citations_nil_info 0 filtered cits hcits

/-- Witness for C10: a run that reaches the answering step (one surviving
passage) yields a citation with absent provenance. -/
theorem process_enhanced_query_no_provenance_spot :
    (EnhancedCitation.mk (Citation.mk (Value.vStr "d1") (Value.vStr "Unknown")
      Value.vNone Value.vNone "some text" Value.vNone) none).embedding_info = none :=
  process_enhanced_query_no_provenance
    (fun _ _ => [RawDoc.chunk (DocumentChunk.mk "some text" [("doc_id", Value.vStr "d1")] 1)])
    (fun _ _ => "llm-answer") "q" none none
    (EnhancedQueryResponse.mk ["llm-answer"]
      [EnhancedCitation.mk (Citation.mk (Value.vStr "d1") (Value.vStr "Unknown")
        Value.vNone Value.vNone "some text" Value.vNone) none]
      [("query", Value.vStr "q"), ("filters", Value.vNone),
       ("selected_document_ids", Value.vNone), ("total_results", Value.vNum 1),
       ("documents_searched", Value.vStr "all")])
    (by rfl)
    (EnhancedCitation.mk (Citation.mk (Value.vStr "d1") (Value.vStr "Unknown")
      Value.vNone Value.vNone "some text" Value.vNone) none)
    (List.Mem.head _)

/-- Every chunk kept by the filter loop passed the whole predicate chain. -/
theorem mem_filterChunks_included (fs : List (String × Value)) :
    ∀ (cs out : List DocumentChunk), filterChunks fs cs = some out →
      ∀ c ∈ out, shouldIncludeChunk c fs = some true := by
  intro cs
  induction cs with
  | nil => intro out h; cases h; intro c hc; cases hc
  | cons c0 cs ih =>
    intro out h
    unfold filterChunks at h
    cases hsi : shouldIncludeChunk c0 fs with
    | none => rw [hsi] at h; cases h
    | some b =>
      rw [hsi] at h
      cases hrec : filterChunks fs cs with
      | none => rw [hrec] at h; cases h
      | some rest =>
        rw [hrec] at h
        injection h with h'
        subst h'
        intro c hc
        cases b with
        | false => exact ih rest hrec c (by simpa using hc)
        | true =>
          rcases List.mem_cons.mp (by simpa using hc) with hc' | hc'
          · subst hc'; exact hsi
          · exact ih rest hrec c hc'

/-- A chunk scoring below a `relevance_threshold` entry present anywhere in
the filter spec can never pass the predicate chain. -/
theorem shouldInclude_below_threshold :
    ∀ (fs : List (String × Value)) (t : Rat) (c : DocumentChunk) (b : Bool),
      ("relevance_threshold", Value.vNum t) ∈ fs → c.similarity_score < t →
      shouldIncludeChunk c fs = some b → b = false := by
  intro fs
  induction fs with
  | nil => intro t c b hmem; cases hmem
  | cons kv fs ih =>
    intro t c b hmem hlt h
    rcases List.mem_cons.mp hmem with hkv | hkv
    · subst hkv
      have : filterStep c "relevance_threshold" (Value.vNum t) = some false := by
        simp [filterStep, hlt]
      rw [shouldIncludeChunk, this] at h
      injection h with h'
      exact h'.symm
    · rw [shouldIncludeChunk] at h
      cases hfs : filterStep c kv.1 kv.2 with
      | none => rw [hfs] at h; cases h
      | some b0 =>
        rw [hfs] at h
        cases b0 with
        | false => injection h with h'; exact h'.symm
        | true => exact ih t c b hkv hlt h

/-- C9: a retriever result in the raw LangChain shape (positional
`page_content` field) is normalized with `similarity_score` exactly 0; and
under any filter spec containing a `relevance_threshold` entry with
threshold strictly above 0, a zero-scored chunk never passes the
predicate chain, so the filter stage of `process_query` keeps no chunk of
score 0. -/
theorem langchain_zero_score_dropped :
    (∀ (pc : String) (md : List (String × Value)) (rest : List RawDoc),
      convert_to_document_chunks (RawDoc.langchain pc md :: rest) =
        DocumentChunk.mk pc md 0 :: convert_to_document_chunks rest) ∧
    (∀ (fs : List (String × Value)) (t : Rat) (c : DocumentChunk) (b : Bool),
      ("relevance_threshold", Value.vNum t) ∈ fs → 0 < t → c.similarity_score = 0 →
      shouldIncludeChunk c fs = some b → b = false) ∧
    (∀ (fs : List (String × Value)) (t : Rat) (P out : List DocumentChunk),
      ("relevance_threshold", Value.vNum t) ∈ fs → 0 < t →
      apply_filters P (some fs) = some out →
      ∀ c ∈ out, ¬ c.similarity_score = 0) := by
  refine ⟨fun _ _ _ => rfl, ?_, ?_⟩
  · intro fs t c b hmem ht hscore h
    exact shouldInclude_below_threshold fs t c b hmem (by rw [hscore]; exact ht) h
  · intro fs t P out hmem ht happly c hc hscore
    cases fs with
    | nil => cases hmem
    | cons f0 fs' =>
      have hinc := mem_filterChunks_included (f0 :: fs') P out happly c hc
      have := shouldInclude_below_threshold (f0 :: fs') t c true hmem
        (by rw [hscore]; exact ht) hinc
      cases this

/-- Witness for C9: a raw LangChain result is normalized with score 0, and
filtering two chunks (scores 0 and 2) through threshold 1 keeps only the
nonzero-scored one. -/
theorem langchain_zero_score_dropped_spot :
    convert_to_document_chunks [RawDoc.langchain "x" [("doc_id", Value.vStr "d")]] =
      [DocumentChunk.mk "x" [("doc_id", Value.vStr "d")] 0] ∧
    ∀ c ∈ [DocumentChunk.mk "b" [] 2], ¬ c.similarity_score = 0 :=
  ⟨langchain_zero_score_dropped.1 "x" [("doc_id", Value.vStr "d")] [],
   langchain_zero_score_dropped.2.2 [("relevance_threshold", Value.vNum 1)] 1
     [DocumentChunk.mk "a" [] 0, DocumentChunk.mk "b" [] 2] [DocumentChunk.mk "b" [] 2]
     (List.Mem.head _) (by decide) (by rfl)⟩

/-- Counterexample to C7 as stated: a passage carrying the (string)
`document_date` value `""` under an active `date_range` filter with start
bound "2020-01-01" is KEPT by the code (the falsiness check treats the
empty string like a missing date), although `""` is not lexicographically
at or above the start bound — so "kept iff the string is within the
bounds" fails for this passage. -/
theorem date_range_empty_string_counterexample :
    check_date_range (DocumentChunk.mk "c" [("document_date", Value.vStr "")] 0)
      [("start", Value.vStr "2020-01-01")] = some true ∧
    ¬ ("2020-01-01".data ≤ "".data) := by
  constructor
  · rfl
  · decide

/-- C7 (amended): a passage whose `document_date` metadata is missing — or
falsy, in particular the empty string — always passes the date predicate;
a passage with a non-empty string `document_date` is kept iff that string
is lexicographically at or above the start bound (when a non-empty start
bound is given) and at or below the end bound (when a non-empty end bound
is given); an empty-string bound behaves like an absent bound. -/
theorem check_date_range_spec :
    (∀ (content : String) (score : Rat) (md dr : List (String × Value)),
      List.lookup "document_date" md = none →
      check_date_range (DocumentChunk.mk content md score) dr = some true) ∧
    (∀ (content : String) (score : Rat) (md : List (String × Value)) (d s e : String),
      List.lookup "document_date" md = some (Value.vStr d) → d ≠ "" →
      (check_date_range (DocumentChunk.mk content md score)
          [("start", Value.vStr s), ("end", Value.vStr e)] = some true ↔
        ((s ≠ "" → s.data ≤ d.data) ∧ (e ≠ "" → d.data ≤ e.data)))) := by
  constructor
  · intro content score md dr h
    simp [check_date_range, h, pyFalsy]
  · intro content score md d s e hd hne
    have hpl1 : pyLt (Value.vStr d) (Value.vStr s) = some (decide (d.data < s.data)) := rfl
    have hpl2 : pyLt (Value.vStr e) (Value.vStr d) = some (decide (e.data < d.data)) := rfl
    by_cases hs0 : s = ""
    · by_cases he0 : e = ""
      · simp [check_date_range, hd, pyFalsy, hne, hs0, he0, List.lookup]
      · by_cases hed : e.data < d.data
        · simp [check_date_range, hd, pyFalsy, hne, hs0, he0, List.lookup, hpl2,
            decide_eq_true hed, not_le.mpr hed]
        · simp [check_date_range, hd, pyFalsy, hne, hs0, he0, List.lookup, hpl2,
            decide_eq_false hed, not_lt.mp hed]
    · by_cases hds : d.data < s.data
      · simp [check_date_range, hd, pyFalsy, hne, hs0, List.lookup, hpl1,
          decide_eq_true hds, not_le.mpr hds]
      · by_cases he0 : e = ""
        · simp [check_date_range, hd, pyFalsy, hne, hs0, he0, List.lookup, hpl1,
            decide_eq_false hds, not_lt.mp hds]
        · by_cases hed : e.data < d.data
          · simp [check_date_range, hd, pyFalsy, hne, hs0, he0, List.lookup, hpl1, hpl2,
              decide_eq_true hed, decide_eq_false hds, not_lt.mp hds, not_le.mpr hed]
          · simp [check_date_range, hd, pyFalsy, hne, hs0, he0, List.lookup, hpl1, hpl2,
              decide_eq_false hds, decide_eq_false hed, not_lt.mp hds, not_lt.mp hed]

/-- Witness for the amended C7: a date inside both bounds is kept, and a
chunk with no `document_date` key passes any date filter. -/
theorem check_date_range_spec_spot :
    check_date_range (DocumentChunk.mk "c" [("document_date", Value.vStr "2021-06-01")] 0)
      [("start", Value.vStr "2021-01-01"), ("end", Value.vStr "2021-12-31")] = some true ∧
    check_date_range (DocumentChunk.mk "c" [] 0) [("start", Value.vStr "2021-01-01")] = some true :=
  ⟨(check_date_range_spec.2 "c" 0 [("document_date", Value.vStr "2021-06-01")]
      "2021-06-01" "2021-01-01" "2021-12-31" rfl (by decide)).mpr
      ⟨fun _ => by decide, fun _ => by decide⟩,
   check_date_range_spec.1 "c" 0 [] [("start", Value.vStr "2021-01-01")] rfl⟩

/-- Counterexample to C4 as stated: the index -1 is out of range of the
zero-based candidate list `[cA, cB]`, so by the claim it should be
silently discarded (yielding no resolved passages) — but the code's guard
`idx < len(chunks)` admits it and Python's negative indexing resolves it
to the LAST candidate, so the theme resolves a passage and a
supporting-document entry. -/
theorem theme_negative_index_counterexample :
    resolve_theme
      [DocumentChunk.mk "a" [("doc_id", Value.vStr "A")] 0,
       DocumentChunk.mk "b" [("doc_id", Value.vStr "B")] 0] [(-1 : Int)] =
      some ([Value.vStr "B"], [DocumentChunk.mk "b" [("doc_id", Value.vStr "B")] 0]) ∧
    some ([Value.vStr "B"], [DocumentChunk.mk "b" [("doc_id", Value.vStr "B")] 0]) ≠
      some (([] : List Value), ([] : List DocumentChunk)) := by
  constructor
  · rfl
  · simp

/-- A successful Python list indexing yields an element of the list. -/
theorem pyListIndex_mem (l : List DocumentChunk) (i : Int) (c : DocumentChunk)
    (h : pyListIndex l i = some c) : c ∈ l := by
  unfold pyListIndex at h
  split at h
  · exact List.getElem?_mem h
  · split at h
    · exact List.getElem?_mem h
    · cases h

/-- C4 (amended): in the shared index-resolution loop, every index that is
at or above `len(candidates)` is silently discarded (filtering them away
does not change the result), and the resolved passages and
supporting-document entries are always drawn from the candidate passages
(positions 0..len-1) — but negative indices at or above `-len` are NOT
discarded: they resolve to position `len + idx`, and indices below `-len`
raise `IndexError` instead of being skipped. -/
theorem resolve_theme_spec (chunks : List DocumentChunk) :
    ∀ (idxs : List Int) (docs : List Value) (picked : List DocumentChunk),
      resolve_theme chunks idxs = some (docs, picked) →
      (∀ c ∈ picked, c ∈ chunks) ∧
      (∀ v ∈ docs, ∃ c ∈ chunks, v = (List.lookup "doc_id" c.metadata).getD (Value.vStr "Unknown")) ∧
      resolve_theme chunks (idxs.filter (fun i => decide (i < (chunks.length : Int)))) =
        some (docs, picked) := by
  intro idxs
  induction idxs with
  | nil =>
    intro docs picked h
    cases h
    exact ⟨fun c hc => absurd hc (List.not_mem_nil c),
      fun v hv => absurd hv (List.not_mem_nil v), rfl⟩
  | cons i rest ih =>
    intro docs picked h
    rw [resolve_theme] at h
    by_cases hi : i < (chunks.length : Int)
    · rw [if_pos hi] at h
      cases hpi : pyListIndex chunks i with
      | none => rw [hpi] at h; cases h
      | some c =>
        rw [hpi] at h
        cases hrec : resolve_theme chunks rest with
        | none => rw [hrec] at h; cases h
        | some dp =>
          obtain ⟨docs', picked'⟩ := dp
          rw [hrec] at h
          injection h with h'
          injection h' with hdocs hpicked
          subst hdocs
          subst hpicked
          obtain ⟨ihmem, ihdocs, ihfilter⟩ := ih docs' picked' hrec
          refine ⟨?_, ?_, ?_⟩
          · intro x hx
            rcases List.mem_cons.mp hx with hx | hx
            · subst hx; exact pyListIndex_mem chunks i x hpi
            · exact ihmem x hx
          · intro v hv
            rcases List.mem_cons.mp hv with hv | hv
            · exact ⟨c, pyListIndex_mem chunks i c hpi, hv⟩
            · exact ihdocs v hv
          · rw [List.filter_cons_of_pos (by simpa using hi), resolve_theme,
              if_pos hi, hpi, ihfilter]
    · rw [if_neg hi] at h
      obtain ⟨ihmem, ihdocs, ihfilter⟩ := ih docs picked h
      exact ⟨ihmem, ihdocs, by
        rw [List.filter_cons_of_neg (by simpa using hi)]
        exact ihfilter⟩

/-- Witness for the amended C4: indices `[0, 5]` against a one-candidate
list resolve only position 0 (5 is discarded), the resolved passage and
supporting id come from the candidate, and filtering the in-range indices
changes nothing. -/
theorem resolve_theme_spec_spot :
    (∀ c ∈ [DocumentChunk.mk "a" [("doc_id", Value.vStr "A")] 0],
      c ∈ [DocumentChunk.mk "a" [("doc_id", Value.vStr "A")] 0]) ∧
    (∀ v ∈ [Value.vStr "A"], ∃ c ∈ [DocumentChunk.mk "a" [("doc_id", Value.vStr "A")] 0],
      v = (List.lookup "doc_id" c.metadata).getD (Value.vStr "Unknown")) ∧
    resolve_theme [DocumentChunk.mk "a" [("doc_id", Value.vStr "A")] 0]
      (([0, 5] : List Int).filter
        (fun i => decide (i < ((List.length [DocumentChunk.mk "a" [("doc_id", Value.vStr "A")] 0] : Nat) : Int)))) =
      some ([Value.vStr "A"], [DocumentChunk.mk "a" [("doc_id", Value.vStr "A")] 0]) :=
  resolve_theme_spec [DocumentChunk.mk "a" [("doc_id", Value.vStr "A")] 0] [0, 5]
    [Value.vStr "A"] [DocumentChunk.mk "a" [("doc_id", Value.vStr "A")] 0] (by rfl)

/-- Concatenating successive `page_size`-sized slices is a prefix of the
list. -/
theorem flatMap_range_take_drop {α : Type} (ps : Nat) (docs : List α) :
    ∀ n, (List.range n).flatMap (fun k => (docs.drop (k * ps)).take ps) = docs.take (n * ps) := by
  intro n
  induction n with
  | zero => simp
  | succ n ih =>
    rw [List.range_succ, List.flatMap_append, ih]
    simp only [List.flatMap_cons, List.flatMap_nil, List.append_nil]
    rw [Nat.succ_mul, List.take_add]

/-- C3: for every filtered document listing and positive page size, the
`search_documents` pagination yields `page_count = max 1 ⌈total_count /
page_size⌉` (so 1 even for an empty listing), and concatenating the page
slices for page numbers 1..page_count in order reproduces the full
filtered, sorted list with no duplicates or omissions. -/
theorem search_documents_pagination {α : Type} (docs : List α) (ps pn : Nat) (hps : 0 < ps) :
    (search_documents_paginate docs ps pn).page_count = max 1 (docs.length ⌈/⌉ ps) ∧
    (List.range (search_documents_paginate docs ps pn).page_count).flatMap
        (fun k => (search_documents_paginate docs ps (k + 1)).documents) = docs := by
  have hcover : docs.length ≤ (search_documents_paginate docs ps pn).page_count * ps := by
    show docs.length ≤ (if 0 < docs.length then (docs.length + ps - 1) / ps else 1) * ps
    by_cases ht : 0 < docs.length
    · rw [if_pos ht]
      have hd := Nat.div_add_mod (docs.length + ps - 1) ps
      have hm := Nat.mod_lt (docs.length + ps - 1) hps
      generalize hq : (docs.length + ps - 1) / ps = q at hd
      generalize hr : (docs.length + ps - 1) % ps = r at hd hm
      have hqc : ps * q = q * ps := Nat.mul_comm ..
      omega
    · rw [if_neg ht]
      omega
  constructor
  · show (if 0 < docs.length then (docs.length + ps - 1) / ps else 1) = _
    rw [Nat.ceilDiv_eq_add_pred_div]
    by_cases ht : 0 < docs.length
    · rw [if_pos ht]
      have h1 : 1 ≤ (docs.length + ps - 1) / ps := by
        rw [Nat.le_div_iff_mul_le hps]
        omega
      omega
    · rw [if_neg ht]
      have h0 : docs.length = 0 := by omega
      rw [h0]
      have hz : (0 + ps - 1) / ps = 0 := Nat.div_eq_of_lt (by omega)
      omega
  · have hpages : ∀ k, (search_documents_paginate docs ps (k + 1)).documents =
        (docs.drop (k * ps)).take ps := fun k => rfl
    calc (List.range (search_documents_paginate docs ps pn).page_count).flatMap
          (fun k => (search_documents_paginate docs ps (k + 1)).documents)
        = (List.range (search_documents_paginate docs ps pn).page_count).flatMap
          (fun k => (docs.drop (k * ps)).take ps) := by simp only [hpages]
      _ = docs.take ((search_documents_paginate docs ps pn).page_count * ps) :=
          flatMap_range_take_drop ps docs _
      _ = docs := List.take_of_length_le hcover

/-- Witness for C3, matching the spec scenario "5 documents, page size 2":
page_count is 3 and the three pages concatenate back to the listing. -/
theorem search_documents_pagination_spot :
    (search_documents_paginate ["a", "b", "c", "d", "e"] 2 1).page_count =
      max 1 ((["a", "b", "c", "d", "e"] : List String).length ⌈/⌉ 2) ∧
    (List.range (search_documents_paginate ["a", "b", "c", "d", "e"] 2 1).page_count).flatMap
        (fun k => (search_documents_paginate ["a", "b", "c", "d", "e"] 2 (k + 1)).documents) =
      ["a", "b", "c", "d", "e"] :=
  search_documents_pagination ["a", "b", "c", "d", "e"] 2 1 (by decide)

end DocQA
